import Mathlib

/-!
# Verification of the AIRES-x1 motion-retargeting bridge

Shallow embedding of the two source files of the repository:

* `src/blender_robot_link.py` — the Link Stage (Policy A, direct bone mapping);
* `src/v1.py` — the Retarget Stage (Policy B, six-axis kinematic decomposition).

Both files share the same serial receiver (`read_serial_thread`), here embedded
once as `processLine` / `processLines`.  Python floats are modelled exactly as
rationals (`ℚ`); host-library functions of Blender's `mathutils` that involve
transcendental trigonometry (`Quaternion.to_euler`, `Euler.to_quaternion`) are
taken as explicit function parameters of the embedding, since they are external
library calls, not code of this repository.  Exceptions raised inside the modal
tick (which Blender propagates out of the operator) are modelled with `Except`,
the error value carrying the scene state at the moment of the raise, since
Python mutations performed before the raise persist.
-/

set_option autoImplicit false

namespace AIRESx1

/-- A parsed JSON value, as produced by Python's `json.loads`. -/
inductive JValue where
  | jnull
  | jbool (b : Bool)
  | jnum (v : ℚ)
  | jstr (s : String)
  | jarr (elems : List JValue)
  | jobj (fields : List (String × JValue))

/-- A JSON object (Python `dict` from `json.loads` on a `{...}` line). -/
abbrev JObj := List (String × JValue)

mutual

/-- Structural equality of JSON values (Python `==` on parsed values,
which is what dict-key identity uses). -/
def JValue.beq : JValue → JValue → Bool
  | .jnull, .jnull => true
  | .jbool a, .jbool b => a == b
  | .jnum a, .jnum b => a == b
  | .jstr a, .jstr b => a == b
  | .jarr xs, .jarr ys => JValue.beqList xs ys
  | .jobj xs, .jobj ys => JValue.beqFields xs ys
  | _, _ => false

/-- Elementwise equality of JSON arrays. -/
def JValue.beqList : List JValue → List JValue → Bool
  | [], [] => true
  | x :: xs, y :: ys => JValue.beq x y && JValue.beqList xs ys
  | _, _ => false

/-- Fieldwise equality of JSON objects. -/
def JValue.beqFields : List (String × JValue) → List (String × JValue) → Bool
  | [], [] => true
  | (k1, v1) :: xs, (k2, v2) :: ys =>
      k1 == k2 && JValue.beq v1 v2 && JValue.beqFields xs ys
  | _, _ => false

end

instance : BEq JValue := ⟨JValue.beq⟩

/-- The shared Orientation Store `latest_data`: Python dict keyed by the
packet's `id` value, holding the packet's `q` value verbatim. -/
def Store := JValue → Option JValue

/-- The empty store (`latest_data = {}` at module load). -/
def Store.empty : Store := fun _ => none

/-- `latest_data[k] = v` — overwrite-on-write dict update. -/
def Store.set (s : Store) (k v : JValue) : Store :=
  fun k' => if JValue.beq k' k then some v else s k'

/-- Whether a parsed JSON value is hashable in Python (usable as a dict key).
`latest_data[data["id"]] = ...` raises `TypeError` (caught by the bare
`except`) when the id is a list or a dict. -/
def hashableKey : JValue → Bool
  | .jarr _ => false
  | .jobj _ => false
  | _ => true

/-- Python's `str.strip()`: whitespace removed from both ends. -/
def pyStrip (s : String) : String :=
  ⟨((s.data.dropWhile Char.isWhitespace).reverse.dropWhile
      Char.isWhitespace).reverse⟩

/-- Python's `str.startswith(pre)`. -/
def pyStartsWith (s pre : String) : Bool :=
  pre.data.isPrefixOf s.data

/-- Python's `str.endswith(suf)`. -/
def pyEndsWith (s suf : String) : Bool :=
  suf.data.reverse.isPrefixOf s.data.reverse

/-- One iteration of the body of `read_serial_thread` operating on one received
line (identical in both source files apart from a debug print):

    line = ser.readline().decode('utf-8').strip()
    if line.startswith('\x7b') and line.endswith('\x7d'):
        data = json.loads(line)
        if "id" in data and "q" in data:
            latest_data[data["id"]] = data["q"]
            packet_count += 1
    ...
    except: pass

`rawLine = none` models a `decode('utf-8')` failure; `loads` is Python's
`json.loads`, an external library call passed as a parameter, returning `none`
when it raises.  A successful parse of a line that passes the brace guard is
necessarily a JSON object, hence the `JObj` codomain.  Every raised exception
is swallowed by the bare `except`, so the step is total on the store. -/
def processLine (loads : String → Option JObj) (store : Store)
    (rawLine : Option String) : Store :=
  match rawLine with
  | none => store
  | some s =>
    let line := pyStrip s
    if pyStartsWith line ("\x7b") && pyEndsWith line ("\x7d") then
      match loads line with
      | none => store
      | some data =>
        match data.lookup ("id"), data.lookup ("q") with
        | some idv, some qv =>
            if hashableKey idv then store.set idv qv else store
        | _, _ => store
    else store

/-- The receiver loop over a finite prefix of the incoming line stream. -/
def processLines (loads : String → Option JObj) (store : Store)
    (lines : List (Option String)) : Store :=
  lines.foldl (processLine loads) store

/-! ## Rotation values (`mathutils` data, components as exact rationals) -/

/-- A `mathutils.Quaternion`, component order (w, x, y, z). -/
structure Quat where
  w : ℚ
  x : ℚ
  y : ℚ
  z : ℚ
  deriving DecidableEq

/-- The identity quaternion `Quaternion((1, 0, 0, 0))`. -/
def Quat.one : Quat := ⟨1, 0, 0, 0⟩

/-- Quaternion composition, `a @ b` of `mathutils` (the Hamilton product). -/
def Quat.mul (a b : Quat) : Quat :=
  ⟨a.w * b.w - a.x * b.x - a.y * b.y - a.z * b.z,
   a.w * b.x + a.x * b.w + a.y * b.z - a.z * b.y,
   a.w * b.y + a.y * b.w + a.z * b.x - a.x * b.z,
   a.w * b.z + a.z * b.w + a.x * b.y - a.y * b.x⟩

/-- A `mathutils.Euler` value: per-axis angle components (x, y, z). -/
structure Euler3 where
  x : ℚ
  y : ℚ
  z : ℚ
  deriving DecidableEq

/-- `math.radians(d) = d·π/180`; π is irrational, so it is carried as an
explicit parameter `pi` of the embedding. -/
def radians (pi d : ℚ) : ℚ := d * pi / 180

/-! ## The host-side pose model (Blender objects and pose bones) -/

/-- The rotation representation mode of a pose bone (the two values the
sources assign: `'QUATERNION'` and `'XYZ'`). -/
inductive RotMode where
  | quaternion
  | xyz
  | other (s : String)
  deriving DecidableEq

/-- The rotation state of one pose bone.  Both rotation fields always exist on
a Blender pose bone, whichever mode is active. -/
structure PoseBone where
  rotation_mode : RotMode
  rotation_euler : Euler3
  rotation_quaternion : Quat
  deriving DecidableEq

/-- `obj.pose.bones`, looked up by bone name (`bones.get` is `none` when the
bone is absent from the rig). -/
def Pose := String → Option PoseBone

/-- Writing the bone record back (Python mutates the bone in place). -/
def Pose.set (p : Pose) (b : String) (pb : PoseBone) : Pose :=
  fun b' => if b' = b then some pb else p b'

/-- A Blender object: its `type` string and (for armatures) its pose bones. -/
structure BObject where
  otype : String
  pose : Pose

/-- `bpy.data.objects`, looked up by object name. -/
def Scene := String → Option BObject

/-- Replacing one object of the scene (pose-bone mutation in place). -/
def Scene.set (s : Scene) (n : String) (o : BObject) : Scene :=
  fun n' => if n' = n then some o else s n'

/-- Blender operator return values used by the sources. -/
inductive OpReturn where
  | runningModal
  | cancelled
  | passThrough
  deriving DecidableEq

/-! ## Retarget Stage — `src/v1.py` (Policy B) -/

namespace V1

/-- `IMU_SHOULDER_ID = 1` (IMU1). -/
def IMU_SHOULDER_ID : ℚ := 1

/-- `IMU_FOREARM_ID = 0` (IMU2). -/
def IMU_FOREARM_ID : ℚ := 0

/-- One entry of `JOINT_MAP`: target bone name and rotation-axis letter. -/
structure JointCfg where
  bone : String
  axis : String
  deriving DecidableEq

/-- The static `JOINT_MAP` of `src/v1.py`. -/
def JOINT_MAP : List (String × JointCfg) :=
  [(("Base"),     ⟨("UpperArm.008"), ("Z")⟩),
   (("Shoulder"), ⟨("UpperArm.015"), ("X")⟩),
   (("Elbow"),    ⟨("UpperArm.018"), ("X")⟩),
   (("Wrist"),    ⟨("UpperArm.019"), ("Y")⟩),
   (("Wrist_2"),  ⟨("UpperArm.020"), ("X")⟩),
   (("Gripper"),  ⟨("UpperArm.021"), ("Y")⟩)]

/-- The static `INITIAL_POSE` home angles, in degrees. -/
def INITIAL_POSE : List (String × ℚ) :=
  [(("Base"), 0), (("Shoulder"), 0), (("Elbow"), 0),
   (("Wrist"), 0), (("Wrist_2"), 0), (("Gripper"), 0)]

/-- `mathutils.Quaternion((q_raw[0], q_raw[1], q_raw[2], q_raw[3]))`: the four
index reads need an array of length at least four and the constructor needs
numeric components; anything else raises (propagating out of `modal`). -/
def quatFromIndexed : JValue → Option Quat
  | .jarr (.jnum w :: .jnum x :: .jnum y :: .jnum z :: _) => some ⟨w, x, y, z⟩
  | _ => none

/-- Step 3 of `modal` — the `target_angles` dict built from the two Euler
triples, reading yaw from `.z`, pitch from `.y` and roll from `.x`. -/
def targetAngles (imu1_euler imu2_euler : Euler3) : List (String × ℚ) :=
  let imu1_yaw   := imu1_euler.z
  let imu1_pitch := imu1_euler.y
  let imu1_roll  := imu1_euler.x
  let imu2_pitch := imu2_euler.y
  let imu2_roll  := imu2_euler.x
  [(("Base"),     imu1_yaw),
   (("Shoulder"), imu1_pitch),
   (("Elbow"),    imu2_pitch - imu1_pitch),
   (("Wrist"),    imu2_roll - imu1_roll),
   (("Wrist_2"),  0),
   (("Gripper"),  imu2_roll)]

/-- The `if axis == 'X' / elif 'Y' / elif 'Z'` dispatch writing one Euler
component; any other axis letter falls through with no write. -/
def setAxisComponent (e : Euler3) (axis : String) (v : ℚ) : Euler3 :=
  if axis = ("X") then { e with x := v }
  else if axis = ("Y") then { e with y := v }
  else if axis = ("Z") then { e with z := v }
  else e

/-- Step 4 of `modal` — the `for joint_name, config in JOINT_MAP.items()`
loop.  The bone's `rotation_mode` is set to `'XYZ'` before the
`target_angles[joint_name]` dict access, so a `KeyError` there (modelled by
the `.error` branch) would leave the already-performed mutations in place. -/
def applyJoints (angles : List (String × ℚ)) (pose : Pose) :
    List (String × JointCfg) → Except Pose Pose
  | [] => .ok pose
  | (joint_name, config) :: rest =>
    match pose config.bone with
    | none => applyJoints angles pose rest
    | some p_bone =>
      let pb1 := { p_bone with rotation_mode := RotMode.xyz }
      let pose1 := pose.set config.bone pb1
      match angles.lookup joint_name with
      | none => .error pose1
      | some angle =>
        let pb2 := { pb1 with
          rotation_euler := setAxisComponent pb1.rotation_euler config.axis angle }
        applyJoints angles (pose1.set config.bone pb2) rest

/-- The `'TIMER'` branch of `RobotMocapOperator.modal` of `src/v1.py`.

`to_euler` is `mathutils.Quaternion.to_euler('ZYX')`, the host library's
quaternion-to-Euler conversion, passed as a parameter of the embedding.
The single guard `if obj and (IMU_SHOULDER_ID in latest_data) and
(IMU_FOREARM_ID in latest_data)` gates the whole update.  An exception
(malformed stored rotation) is `.error`, carrying the scene as mutated so
far; it occurs before any bone write, hence carries the unchanged scene. -/
def tick (to_euler : Quat → Euler3) (scene : Scene) (armature_name : String)
    (store : Store) : Except Scene Scene :=
  match scene armature_name with
  | none => .ok scene
  | some obj =>
    match store (.jnum IMU_SHOULDER_ID), store (.jnum IMU_FOREARM_ID) with
    | some q1_raw, some q2_raw =>
      match quatFromIndexed q1_raw with
      | none => .error scene
      | some q1 =>
        match quatFromIndexed q2_raw with
        | none => .error scene
        | some q2 =>
          let imu1_euler := to_euler q1
          let imu2_euler := to_euler q2
          let angles := targetAngles imu1_euler imu2_euler
          match applyJoints angles obj.pose JOINT_MAP with
          | .ok pose' => .ok (scene.set armature_name { obj with pose := pose' })
          | .error pose' => .error (scene.set armature_name { obj with pose := pose' })
    | _, _ => .ok scene

/-- The reset loop of `RobotMocapOperator.cancel` of `src/v1.py`: every
configured joint is driven to `radians(INITIAL_POSE.get(joint_name, 0.0))`
on its configured axis, unconditionally (the Orientation Store is never
consulted). -/
def resetJoints (pi : ℚ) (pose : Pose) : List (String × JointCfg) → Pose
  | [] => pose
  | (joint_name, config) :: rest =>
    let target_deg := (INITIAL_POSE.lookup joint_name).getD 0
    let target_rad := radians pi target_deg
    match pose config.bone with
    | none => resetJoints pi pose rest
    | some p_bone =>
      let pb' := { p_bone with
        rotation_mode := RotMode.xyz,
        rotation_euler := setAxisComponent p_bone.rotation_euler config.axis target_rad }
      resetJoints pi (pose.set config.bone pb') rest

/-- The pose effect of `RobotMocapOperator.cancel` of `src/v1.py` (the
"RESET TO INITIAL POSE" block). -/
def cancelReset (pi : ℚ) (scene : Scene) (armature_name : String) : Scene :=
  match scene armature_name with
  | none => scene
  | some obj =>
    scene.set armature_name { obj with pose := resetJoints pi obj.pose JOINT_MAP }

/-- Run flag, timer registration and scene — the state `cancel` acts on. -/
structure RunState where
  is_running : Bool
  timer_active : Bool
  scene : Scene

/-- `RobotMocapOperator.cancel` of `src/v1.py`: clears the run flag, removes
the timer, resets every configured joint to its home angle once, and returns
`{'CANCELLED'}`. -/
def cancel (pi : ℚ) (st : RunState) (armature_name : String) :
    RunState × OpReturn :=
  (⟨false, false, cancelReset pi st.scene armature_name⟩, .cancelled)

end V1

/-! ## Link Stage — `src/blender_robot_link.py` (Policy A) -/

namespace Link

/-- The static `BONE_MAP` of `src/blender_robot_link.py`. -/
def BONE_MAP : List (ℚ × String) :=
  [(0, ("UpperArm.008")), (1, ("UpperArm.021"))]

/-- The static `BONE_OFFSETS`: per-sensor corrective offsets, both the
identity Euler `(0, 0, 0)`. -/
def BONE_OFFSETS : List (ℚ × Euler3) :=
  [(0, ⟨0, 0, 0⟩), (1, ⟨0, 0, 0⟩)]

/-- `w, x, y, z = latest_data[sensor_id]` followed by
`mathutils.Quaternion((w, y, x, -z))`: the tuple unpacking needs exactly
four elements and the constructor needs numeric components; anything else
raises (propagating out of `modal`). -/
def unpackQuat4 : JValue → Option (ℚ × ℚ × ℚ × ℚ)
  | .jarr [.jnum w, .jnum x, .jnum y, .jnum z] => some (w, x, y, z)
  | _ => none

/-- The `for sensor_id, bone_name in BONE_MAP.items()` loop of `modal`.
`to_quaternion` is `mathutils.Euler.to_quaternion`, the host library's
Euler-to-quaternion conversion, passed as a parameter of the embedding.
The stored quaternion components (w, x, y, z) are relabeled to
`(w, y, x, -z)` and composed with the offset applied second:
`final_rot = sensor_quat @ offset.to_quaternion()`. -/
def applyBones (to_quaternion : Euler3 → Quat) (store : Store) (pose : Pose) :
    List (ℚ × String) → Except Pose Pose
  | [] => .ok pose
  | (sensor_id, bone_name) :: rest =>
    match store (.jnum sensor_id) with
    | none => applyBones to_quaternion store pose rest
    | some qv =>
      match pose bone_name with
      | none =>
        -- bone missing: only a warning print; this sensor is skipped
        applyBones to_quaternion store pose rest
      | some p_bone =>
        match unpackQuat4 qv with
        | none => .error pose
        | some (w, x, y, z) =>
          let sensor_quat : Quat := ⟨w, y, x, -z⟩
          let offset := (BONE_OFFSETS.lookup sensor_id).getD ⟨0, 0, 0⟩
          let final_rot := sensor_quat.mul (to_quaternion offset)
          let pb' := { p_bone with
            rotation_mode := RotMode.quaternion,
            rotation_quaternion := final_rot }
          applyBones to_quaternion store (pose.set bone_name pb') rest

/-- The `'TIMER'` branch of `RobotMocapOperator.modal` of
`src/blender_robot_link.py`.  When the armature is gone the code prints
CRITICAL and invokes `cancel`, which performs no pose write, so the scene
is returned unchanged. -/
def tick (to_quaternion : Euler3 → Quat) (scene : Scene)
    (armature_name : String) (store : Store) : Except Scene Scene :=
  match scene armature_name with
  | none => .ok scene
  | some obj =>
    match applyBones to_quaternion store obj.pose BONE_MAP with
    | .ok pose' => .ok (scene.set armature_name { obj with pose := pose' })
    | .error pose' => .error (scene.set armature_name { obj with pose := pose' })

/-- `RobotMocapOperator.cancel` of `src/blender_robot_link.py`: clears the
run flag, removes the timer, performs no pose write, returns `{'CANCELLED'}`. -/
def cancel (st : V1.RunState) : V1.RunState × OpReturn :=
  (⟨false, false, st.scene⟩, .cancelled)

end Link

/-! ## Lifecycle — the `execute` start command

The bodies of `RobotMocapOperator.execute` are control-flow identical in both
source files (`src/v1.py` lines 193–214 and `src/blender_robot_link.py` lines
147–174); only log texts differ.  They are embedded once. -/

namespace Lifecycle

/-- The host's currently active object: its name and `type` string. -/
structure ActiveObj where
  name : String
  otype : String

/-- Rig resolution at start: prefer the active object if it is an armature,
else fall back to the object named `"Armature"`, else fail. -/
def resolveArmature (active : Option ActiveObj) (objects : Scene) :
    Option String :=
  match active with
  | some a =>
    if a.otype = ("ARMATURE") then some a.name
    else if (objects ("Armature")).isSome then some ("Armature") else none
  | none => if (objects ("Armature")).isSome then some ("Armature") else none

/-- The observable outcome of one `execute` call. -/
structure ExecResult where
  is_running : Bool
  armature_name : String
  thread_started : Bool
  timer_added : Bool
  error_reported : Bool
  ret : OpReturn
  deriving DecidableEq

/-- `RobotMocapOperator.execute`: when already running it is a guarded no-op;
otherwise it resolves the rig, and on failure reports a user-facing error and
returns `{'CANCELLED'}` with no state change, while on success it sets the run
flag, starts the receiver thread, registers the ~16 ms timer and returns
`{'RUNNING_MODAL'}`. -/
def execute (is_running : Bool) (armature_name : String)
    (active : Option ActiveObj) (objects : Scene) : ExecResult :=
  if is_running then
    ⟨is_running, armature_name, false, false, false, .runningModal⟩
  else
    match resolveArmature active objects with
    | none => ⟨false, armature_name, false, false, true, .cancelled⟩
    | some nm => ⟨true, nm, true, true, false, .runningModal⟩

end Lifecycle

/-! ## Accessors and basic lemmas -/

/-- The scene after a modal tick, whether it returned normally or raised:
Python mutations performed before a raise persist. -/
def sceneAfter : Except Scene Scene → Scene
  | .ok s => s
  | .error s => s

/-- Whether the modal tick raised an exception (which Blender propagates,
aborting the operator's update). -/
def raised : Except Scene Scene → Bool
  | .ok _ => false
  | .error _ => true

/-- The state of one named bone of one named object after a modal tick. -/
def boneAfter (r : Except Scene Scene) (nm b : String) : Option PoseBone :=
  ((sceneAfter r) nm).bind fun o => o.pose b

/-- The state of one named bone of one named object in a scene. -/
def boneIn (scene : Scene) (nm b : String) : Option PoseBone :=
  (scene nm).bind fun o => o.pose b

theorem Pose.set_at_bone (p : Pose) (b : String) (pb : PoseBone) :
    (p.set b pb) b = some pb := by
  simp [Pose.set]

theorem Pose.set_at_other_bone (p : Pose) (b b' : String) (pb : PoseBone) (h : b' ≠ b) :
    (p.set b pb) b' = p b' := by
  simp [Pose.set, h]

theorem Scene.set_at_name (s : Scene) (n : String) (o : BObject) :
    (s.set n o) n = some o := by
  simp [Scene.set]

theorem Quat.mul_one_right (q : Quat) : q.mul Quat.one = q := by
  cases q
  simp only [Quat.mul, Quat.one, Quat.mk.injEq]
  refine ⟨by ring, by ring, by ring, by ring⟩

/-! ## Behaviour of the Retarget Stage tick -/

/-- Full description of a Retarget Stage tick when the armature is present,
both sensor entries hold well-formed rotations, and all six configured bones
exist: the tick does not raise, and every joint's bone receives Euler mode,
the derived angle on its configured axis, and nothing else. -/
theorem V1.tick_full_update (to_euler : Quat → Euler3) (scene : Scene) (nm : String)
    (store : Store) (obj : BObject)
    (q1_raw q2_raw : JValue) (q1 q2 : Quat) (e1 e2 : Euler3)
    (pbB pbS pbE pbW pbW2 pbG : PoseBone)
    (hobj : scene nm = some obj)
    (h1 : store (.jnum IMU_SHOULDER_ID) = some q1_raw)
    (h2 : store (.jnum IMU_FOREARM_ID) = some q2_raw)
    (hq1 : quatFromIndexed q1_raw = some q1)
    (hq2 : quatFromIndexed q2_raw = some q2)
    (he1 : to_euler q1 = e1)
    (he2 : to_euler q2 = e2)
    (hB : obj.pose ("UpperArm.008") = some pbB)
    (hS : obj.pose ("UpperArm.015") = some pbS)
    (hE : obj.pose ("UpperArm.018") = some pbE)
    (hW : obj.pose ("UpperArm.019") = some pbW)
    (hW2 : obj.pose ("UpperArm.020") = some pbW2)
    (hG : obj.pose ("UpperArm.021") = some pbG) :
    raised (tick to_euler scene nm store) = false ∧
    boneAfter (tick to_euler scene nm store) nm ("UpperArm.008") =
      some ⟨RotMode.xyz, { pbB.rotation_euler with z := e1.z }, pbB.rotation_quaternion⟩ ∧
    boneAfter (tick to_euler scene nm store) nm ("UpperArm.015") =
      some ⟨RotMode.xyz, { pbS.rotation_euler with x := e1.y }, pbS.rotation_quaternion⟩ ∧
    boneAfter (tick to_euler scene nm store) nm ("UpperArm.018") =
      some ⟨RotMode.xyz, { pbE.rotation_euler with x := e2.y - e1.y }, pbE.rotation_quaternion⟩ ∧
    boneAfter (tick to_euler scene nm store) nm ("UpperArm.019") =
      some ⟨RotMode.xyz, { pbW.rotation_euler with y := e2.x - e1.x }, pbW.rotation_quaternion⟩ ∧
    boneAfter (tick to_euler scene nm store) nm ("UpperArm.020") =
      some ⟨RotMode.xyz, { pbW2.rotation_euler with x := 0 }, pbW2.rotation_quaternion⟩ ∧
    boneAfter (tick to_euler scene nm store) nm ("UpperArm.021") =
      some ⟨RotMode.xyz, { pbG.rotation_euler with y := e2.x }, pbG.rotation_quaternion⟩ := by
  refine ⟨?_, ?_, ?_, ?_, ?_, ?_, ?_⟩ <;>
    simp only [tick, hobj, h1, h2, hq1, hq2, he1, he2, JOINT_MAP, targetAngles,
      applyJoints, List.lookup, setAxisComponent, hB, hS, hE, hW, hW2, hG,
      Pose.set_at_bone, Pose.set_at_other_bone, String.reduceBEq, String.reduceEq,
      String.reduceNe, cond_true, cond_false, ne_eq, not_false_iff,
      reduceCtorEq, reduceIte, raised, boneAfter, sceneAfter, Scene.set_at_name,
      Option.bind_some, Option.some_bind]

/-- The all-or-nothing gate: when either sensor id has no Orientation Store
entry, the tick changes nothing at all (it returns the scene untouched). -/
theorem V1.tick_gate (to_euler : Quat → Euler3) (scene : Scene) (nm : String)
    (store : Store)
    (h : store (.jnum IMU_SHOULDER_ID) = none ∨
         store (.jnum IMU_FOREARM_ID) = none) :
    tick to_euler scene nm store = .ok scene := by
  unfold tick
  cases hobj : scene nm with
  | none => rfl
  | some obj =>
    rcases h with h | h
    · rw [h]
    · rw [h]
      cases store (.jnum IMU_SHOULDER_ID) <;> rfl

/-- When both entries are present but the shoulder entry is not a readable
rotation, the tick raises before writing anything: the scene is unchanged. -/
theorem V1.tick_bad_shoulder (to_euler : Quat → Euler3) (scene : Scene)
    (nm : String) (store : Store) (obj : BObject) (q1_raw q2_raw : JValue)
    (hobj : scene nm = some obj)
    (h1 : store (.jnum IMU_SHOULDER_ID) = some q1_raw)
    (h2 : store (.jnum IMU_FOREARM_ID) = some q2_raw)
    (hq1 : quatFromIndexed q1_raw = none) :
    tick to_euler scene nm store = .error scene := by
  unfold tick
  rw [hobj, h1, h2]
  simp only [hq1]



/-- Full description of a Link Stage tick when the armature is present, both
configured sensors have well-formed entries, and both configured bones exist:
each bone is switched to quaternion mode and receives the relabeled sensor
quaternion composed with its offset, its Euler state untouched. -/
theorem Link.tick_both_sensors (to_quaternion : Euler3 → Quat) (scene : Scene)
    (nm : String) (store : Store) (obj : BObject) (q0v q1v : JValue)
    (w0 x0 y0 z0 w1 x1 y1 z1 : ℚ) (pb0 pb1 : PoseBone)
    (hobj : scene nm = some obj)
    (h0 : store (.jnum 0) = some q0v)
    (h1 : store (.jnum 1) = some q1v)
    (hu0 : unpackQuat4 q0v = some (w0, x0, y0, z0))
    (hu1 : unpackQuat4 q1v = some (w1, x1, y1, z1))
    (hb0 : obj.pose ("UpperArm.008") = some pb0)
    (hb1 : obj.pose ("UpperArm.021") = some pb1) :
    raised (tick to_quaternion scene nm store) = false ∧
    boneAfter (tick to_quaternion scene nm store) nm ("UpperArm.008") =
      some ⟨RotMode.quaternion, pb0.rotation_euler,
            Quat.mul ⟨w0, y0, x0, -z0⟩ (to_quaternion ⟨0, 0, 0⟩)⟩ ∧
    boneAfter (tick to_quaternion scene nm store) nm ("UpperArm.021") =
      some ⟨RotMode.quaternion, pb1.rotation_euler,
            Quat.mul ⟨w1, y1, x1, -z1⟩ (to_quaternion ⟨0, 0, 0⟩)⟩ := by
  refine ⟨?_, ?_, ?_⟩ <;>
    simp only [tick, hobj, h0, h1, hu0, hu1, BONE_MAP, BONE_OFFSETS,
      applyBones, List.lookup, hb0, hb1, Pose.set_at_bone, Pose.set_at_other_bone,
      String.reduceBEq, String.reduceEq, String.reduceNe, cond_true,
      cond_false, ne_eq, not_false_iff, reduceCtorEq, reduceIte, raised,
      boneAfter, sceneAfter, Scene.set_at_name, Option.bind_some,
      Option.some_bind, Option.getD_some] <;> try rfl



/-- Link Stage tick with only sensor 0 present: its bone gets the relabeled
composed rotation; sensor 1's bone is left exactly as it was. -/
theorem Link.tick_only0_spec (to_quaternion : Euler3 → Quat) (scene : Scene)
    (nm : String) (store : Store) (obj : BObject) (q0v : JValue)
    (w0 x0 y0 z0 : ℚ) (pb0 : PoseBone)
    (hobj : scene nm = some obj)
    (h0 : store (.jnum 0) = some q0v)
    (h1 : store (.jnum 1) = none)
    (hu0 : unpackQuat4 q0v = some (w0, x0, y0, z0))
    (hb0 : obj.pose ("UpperArm.008") = some pb0) :
    raised (tick to_quaternion scene nm store) = false ∧
    boneAfter (tick to_quaternion scene nm store) nm ("UpperArm.008") =
      some ⟨RotMode.quaternion, pb0.rotation_euler,
            Quat.mul ⟨w0, y0, x0, -z0⟩ (to_quaternion ⟨0, 0, 0⟩)⟩ ∧
    boneAfter (tick to_quaternion scene nm store) nm ("UpperArm.021") =
      obj.pose ("UpperArm.021") := by
  refine ⟨?_, ?_, ?_⟩ <;>
    simp only [tick, hobj, h0, h1, hu0, BONE_MAP, BONE_OFFSETS,
      applyBones, List.lookup, hb0, Pose.set_at_bone, Pose.set_at_other_bone,
      String.reduceBEq, String.reduceEq, String.reduceNe, cond_true,
      cond_false, ne_eq, not_false_iff, reduceCtorEq, reduceIte, raised,
      boneAfter, sceneAfter, Scene.set_at_name, Option.bind_some,
      Option.some_bind, Option.getD_some] <;> try rfl

/-- When sensor 0 has never received a packet, its bone is untouched by a
Link Stage tick, whatever happens with sensor 1 (skip, update, or raise). -/
theorem Link.tick_absent0 (to_quaternion : Euler3 → Quat) (scene : Scene)
    (nm : String) (store : Store) (obj : BObject)
    (hobj : scene nm = some obj)
    (h0 : store (.jnum 0) = none) :
    boneAfter (tick to_quaternion scene nm store) nm ("UpperArm.008") =
      obj.pose ("UpperArm.008") := by
  unfold tick
  rw [hobj]
  simp only [BONE_MAP, applyBones, h0]
  cases h1 : store (.jnum 1) with
  | none =>
    simp [boneAfter, sceneAfter, Scene.set_at_name, hobj]
  | some q1v =>
    cases hpb : obj.pose ("UpperArm.021") with
    | none =>
      simp [boneAfter, sceneAfter, Scene.set_at_name, hobj]
    | some pb1 =>
      cases hu : unpackQuat4 q1v with
      | none =>
        simp [hu, boneAfter, sceneAfter, Scene.set_at_name]
      | some t =>
        obtain ⟨w1, x1, y1, z1⟩ := t
        simp [hu, boneAfter, sceneAfter, Scene.set_at_name, Pose.set_at_other_bone]



/-- When sensor 1 has never received a packet, its bone is untouched by a
Link Stage tick, whatever happens with sensor 0 (skip, update, or raise). -/
theorem Link.tick_absent1 (to_quaternion : Euler3 → Quat) (scene : Scene)
    (nm : String) (store : Store) (obj : BObject)
    (hobj : scene nm = some obj)
    (h1 : store (.jnum 1) = none) :
    boneAfter (tick to_quaternion scene nm store) nm ("UpperArm.021") =
      obj.pose ("UpperArm.021") := by
  unfold tick
  rw [hobj]
  simp only [BONE_MAP, applyBones]
  cases h0 : store (.jnum 0) with
  | none =>
    simp [h1, boneAfter, sceneAfter, Scene.set_at_name, hobj]
  | some q0v =>
    cases hpb : obj.pose ("UpperArm.008") with
    | none =>
      simp [h1, boneAfter, sceneAfter, Scene.set_at_name, hobj]
    | some pb0 =>
      cases hu : unpackQuat4 q0v with
      | none =>
        simp [hu, boneAfter, sceneAfter, Scene.set_at_name]
      | some t =>
        obtain ⟨w0, x0, y0, z0⟩ := t
        simp [hu, h1, boneAfter, sceneAfter, Scene.set_at_name, Pose.set_at_other_bone]

/-- Full description of the Retarget Stage stop reset: with the armature and
all six configured bones present, `cancel` drives every joint's configured
axis to `radians(INITIAL_POSE[joint])` in Euler mode, touching nothing else,
and never consulting the Orientation Store. -/
theorem V1.cancelReset_spec (pi : ℚ) (scene : Scene) (nm : String)
    (obj : BObject) (pbB pbS pbE pbW pbW2 pbG : PoseBone)
    (hobj : scene nm = some obj)
    (hB : obj.pose ("UpperArm.008") = some pbB)
    (hS : obj.pose ("UpperArm.015") = some pbS)
    (hE : obj.pose ("UpperArm.018") = some pbE)
    (hW : obj.pose ("UpperArm.019") = some pbW)
    (hW2 : obj.pose ("UpperArm.020") = some pbW2)
    (hG : obj.pose ("UpperArm.021") = some pbG) :
    boneIn (cancelReset pi scene nm) nm ("UpperArm.008") =
      some ⟨RotMode.xyz, { pbB.rotation_euler with z := radians pi 0 }, pbB.rotation_quaternion⟩ ∧
    boneIn (cancelReset pi scene nm) nm ("UpperArm.015") =
      some ⟨RotMode.xyz, { pbS.rotation_euler with x := radians pi 0 }, pbS.rotation_quaternion⟩ ∧
    boneIn (cancelReset pi scene nm) nm ("UpperArm.018") =
      some ⟨RotMode.xyz, { pbE.rotation_euler with x := radians pi 0 }, pbE.rotation_quaternion⟩ ∧
    boneIn (cancelReset pi scene nm) nm ("UpperArm.019") =
      some ⟨RotMode.xyz, { pbW.rotation_euler with y := radians pi 0 }, pbW.rotation_quaternion⟩ ∧
    boneIn (cancelReset pi scene nm) nm ("UpperArm.020") =
      some ⟨RotMode.xyz, { pbW2.rotation_euler with x := radians pi 0 }, pbW2.rotation_quaternion⟩ ∧
    boneIn (cancelReset pi scene nm) nm ("UpperArm.021") =
      some ⟨RotMode.xyz, { pbG.rotation_euler with y := radians pi 0 }, pbG.rotation_quaternion⟩ := by
  refine ⟨?_, ?_, ?_, ?_, ?_, ?_⟩ <;>
    simp only [cancelReset, hobj, resetJoints, JOINT_MAP, INITIAL_POSE,
      List.lookup, setAxisComponent, hB, hS, hE, hW, hW2, hG,
      Pose.set_at_bone, Pose.set_at_other_bone, String.reduceBEq, String.reduceEq,
      String.reduceNe, cond_true, cond_false, ne_eq, not_false_iff,
      reduceCtorEq, reduceIte, boneIn, Scene.set_at_name, Option.bind_some,
      Option.some_bind, Option.getD_some]

/-! ## Component accessors -/

/-- The rotation mode of a bone after a tick. -/
def modeAfter (r : Except Scene Scene) (nm b : String) : Option RotMode :=
  (boneAfter r nm b).map PoseBone.rotation_mode

/-- The Euler rotation of a bone after a tick. -/
def eulerAfter (r : Except Scene Scene) (nm b : String) : Option Euler3 :=
  (boneAfter r nm b).map PoseBone.rotation_euler

/-- The quaternion rotation of a bone after a tick. -/
def quatAfter (r : Except Scene Scene) (nm b : String) : Option Quat :=
  (boneAfter r nm b).map PoseBone.rotation_quaternion

/-- The rotation mode of a bone in a plain scene. -/
def modeIn (scene : Scene) (nm b : String) : Option RotMode :=
  (boneIn scene nm b).map PoseBone.rotation_mode

/-! ## Concrete fixtures used by witnesses and counterexamples -/

/-- A sample bone: quaternion mode, a recognisable Euler triple, identity
quaternion. -/
def pbSample : PoseBone := ⟨RotMode.quaternion, ⟨100, 200, 300⟩, ⟨1, 0, 0, 0⟩⟩

/-- A rig holding all six configured bones, each in the sample state. -/
def poseSample : Pose := fun b =>
  if b = ("UpperArm.008") then some pbSample
  else if b = ("UpperArm.015") then some pbSample
  else if b = ("UpperArm.018") then some pbSample
  else if b = ("UpperArm.019") then some pbSample
  else if b = ("UpperArm.020") then some pbSample
  else if b = ("UpperArm.021") then some pbSample
  else none

/-- The sample armature object. -/
def objSample : BObject := ⟨("ARMATURE"), poseSample⟩

/-- A scene holding one armature under the default name. -/
def sceneSample : Scene := fun n =>
  if n = ("Armature") then some objSample else none

/-- A scene with no objects at all. -/
def sceneNone : Scene := fun _ => none

/-- Orientation Store with well-formed packets from both sensors: shoulder
(id 1) sent (1,0,0,0), forearm (id 0) sent (0,1,0,0). -/
def storeSampleV1 : Store :=
  (Store.empty.set (.jnum 1) (.jarr [.jnum 1, .jnum 0, .jnum 0, .jnum 0])).set
    (.jnum 0) (.jarr [.jnum 0, .jnum 1, .jnum 0, .jnum 0])

/-- Orientation Store where only the shoulder sensor ever sent a packet. -/
def storeOnlyShoulder : Store :=
  Store.empty.set (.jnum 1) (.jarr [.jnum 1, .jnum 0, .jnum 0, .jnum 0])

/-- Orientation Store with the identity packet (1,0,0,0) from both sensors. -/
def storeSampleLink : Store :=
  (Store.empty.set (.jnum 0) (.jarr [.jnum 1, .jnum 0, .jnum 0, .jnum 0])).set
    (.jnum 1) (.jarr [.jnum 1, .jnum 0, .jnum 0, .jnum 0])

/-- A stand-in for `mathutils.Quaternion.to_euler('ZYX')` realising the
numeric scenario of the spec: the shoulder packet (1,0,0,0) maps to the Euler
triple (roll 0, pitch 10, yaw 30) and the forearm packet (0,1,0,0) to
(roll 5, pitch 25, yaw 0), in the degree scale. -/
def to_eulerSample : Quat → Euler3 := fun q =>
  if q.w = 1 then ⟨0, 10, 30⟩ else ⟨5, 25, 0⟩

/-- A stand-in for `mathutils.Euler.to_quaternion` agreeing with it on the
only offset value the configuration contains: the identity Euler `(0,0,0)`,
whose quaternion is the identity. -/
def to_quaternionSample : Euler3 → Quat := fun _ => Quat.one


/-! ## Claims -/

/-- Claim C1: in the Retarget Stage (Policy B), on a tick with both sensors
present, the six derived joint angles are base = shoulder yaw (`.z`),
shoulder = shoulder pitch (`.y`), elbow = forearm pitch minus shoulder pitch,
wrist = forearm roll (`.x`) minus shoulder roll, wrist_2 = 0, and gripper =
forearm roll, each written to its joint's configured axis, where the Euler
triples are produced by the host's `to_euler('ZYX')` conversion with
components read as yaw = Z, pitch = Y, roll = X.  The witness realises the
spec's numeric scenario (shoulder yaw 30°, pitch 10°, roll 0°; forearm pitch
25°, roll 5° — giving 30, 10, 15, 5, 0, 5). -/
theorem C1_policyB_derived_joint_angles (to_euler : Quat → Euler3)
    (scene : Scene) (nm : String) (store : Store) (obj : BObject)
    (q1_raw q2_raw : JValue) (q1 q2 : Quat) (e1 e2 : Euler3)
    (pbB pbS pbE pbW pbW2 pbG : PoseBone)
    (hobj : scene nm = some obj)
    (h1 : store (.jnum V1.IMU_SHOULDER_ID) = some q1_raw)
    (h2 : store (.jnum V1.IMU_FOREARM_ID) = some q2_raw)
    (hq1 : V1.quatFromIndexed q1_raw = some q1)
    (hq2 : V1.quatFromIndexed q2_raw = some q2)
    (he1 : to_euler q1 = e1)
    (he2 : to_euler q2 = e2)
    (hB : obj.pose ("UpperArm.008") = some pbB)
    (hS : obj.pose ("UpperArm.015") = some pbS)
    (hE : obj.pose ("UpperArm.018") = some pbE)
    (hW : obj.pose ("UpperArm.019") = some pbW)
    (hW2 : obj.pose ("UpperArm.020") = some pbW2)
    (hG : obj.pose ("UpperArm.021") = some pbG) :
    boneAfter (V1.tick to_euler scene nm store) nm ("UpperArm.008") =
      some ⟨RotMode.xyz, { pbB.rotation_euler with z := e1.z }, pbB.rotation_quaternion⟩ ∧
    boneAfter (V1.tick to_euler scene nm store) nm ("UpperArm.015") =
      some ⟨RotMode.xyz, { pbS.rotation_euler with x := e1.y }, pbS.rotation_quaternion⟩ ∧
    boneAfter (V1.tick to_euler scene nm store) nm ("UpperArm.018") =
      some ⟨RotMode.xyz, { pbE.rotation_euler with x := e2.y - e1.y }, pbE.rotation_quaternion⟩ ∧
    boneAfter (V1.tick to_euler scene nm store) nm ("UpperArm.019") =
      some ⟨RotMode.xyz, { pbW.rotation_euler with y := e2.x - e1.x }, pbW.rotation_quaternion⟩ ∧
    boneAfter (V1.tick to_euler scene nm store) nm ("UpperArm.020") =
      some ⟨RotMode.xyz, { pbW2.rotation_euler with x := 0 }, pbW2.rotation_quaternion⟩ ∧
    boneAfter (V1.tick to_euler scene nm store) nm ("UpperArm.021") =
      some ⟨RotMode.xyz, { pbG.rotation_euler with y := e2.x }, pbG.rotation_quaternion⟩ := by
  obtain ⟨-, c1, c2, c3, c4, c5, c6⟩ :=
    V1.tick_full_update to_euler scene nm store obj q1_raw q2_raw q1 q2 e1 e2
      pbB pbS pbE pbW pbW2 pbG hobj h1 h2 hq1 hq2 he1 he2 hB hS hE hW hW2 hG
  exact ⟨c1, c2, c3, c4, c5, c6⟩

/-- Witness for C1: the spec's numeric scenario evaluated on the sample rig.
Shoulder Euler (roll 0, pitch 10, yaw 30) and forearm Euler (roll 5,
pitch 25) give base 30, shoulder 10, elbow 15, wrist 5, wrist_2 0,
gripper 5 on the configured axes (initial Euler state was (100, 200, 300)
on every bone). -/
theorem C1_witness :
    to_eulerSample ⟨1, 0, 0, 0⟩ = ⟨0, 10, 30⟩ ∧
    to_eulerSample ⟨0, 1, 0, 0⟩ = ⟨5, 25, 0⟩ ∧
    boneAfter (V1.tick to_eulerSample sceneSample ("Armature") storeSampleV1)
      ("Armature") ("UpperArm.008") = some ⟨RotMode.xyz, ⟨100, 200, 30⟩, ⟨1, 0, 0, 0⟩⟩ ∧
    boneAfter (V1.tick to_eulerSample sceneSample ("Armature") storeSampleV1)
      ("Armature") ("UpperArm.015") = some ⟨RotMode.xyz, ⟨10, 200, 300⟩, ⟨1, 0, 0, 0⟩⟩ ∧
    boneAfter (V1.tick to_eulerSample sceneSample ("Armature") storeSampleV1)
      ("Armature") ("UpperArm.018") = some ⟨RotMode.xyz, ⟨15, 200, 300⟩, ⟨1, 0, 0, 0⟩⟩ ∧
    boneAfter (V1.tick to_eulerSample sceneSample ("Armature") storeSampleV1)
      ("Armature") ("UpperArm.019") = some ⟨RotMode.xyz, ⟨100, 5, 300⟩, ⟨1, 0, 0, 0⟩⟩ ∧
    boneAfter (V1.tick to_eulerSample sceneSample ("Armature") storeSampleV1)
      ("Armature") ("UpperArm.020") = some ⟨RotMode.xyz, ⟨0, 200, 300⟩, ⟨1, 0, 0, 0⟩⟩ ∧
    boneAfter (V1.tick to_eulerSample sceneSample ("Armature") storeSampleV1)
      ("Armature") ("UpperArm.021") = some ⟨RotMode.xyz, ⟨100, 5, 300⟩, ⟨1, 0, 0, 0⟩⟩ := by
  have h := C1_policyB_derived_joint_angles to_eulerSample sceneSample
    ("Armature") storeSampleV1 objSample
    (.jarr [.jnum 1, .jnum 0, .jnum 0, .jnum 0])
    (.jarr [.jnum 0, .jnum 1, .jnum 0, .jnum 0])
    ⟨1, 0, 0, 0⟩ ⟨0, 1, 0, 0⟩ ⟨0, 10, 30⟩ ⟨5, 25, 0⟩
    pbSample pbSample pbSample pbSample pbSample pbSample
    rfl rfl rfl rfl rfl (by decide) (by decide) rfl rfl rfl rfl rfl rfl
  refine ⟨by decide, by decide,
    h.1.trans ?_, h.2.1.trans ?_, h.2.2.1.trans ?_,
    h.2.2.2.1.trans ?_, h.2.2.2.2.1.trans ?_,
    h.2.2.2.2.2.trans ?_⟩ <;> norm_num [pbSample]


/-- Claim C3: the Retarget Stage's all-or-nothing gate.  If either the
shoulder or the forearm sensor id has no Orientation Store entry, the tick
returns the scene completely untouched; when both entries are present (and
hold readable rotations, with the configured bones in the rig) all six
joints are written in the same tick — never a partial update. -/
theorem C3_policyB_all_or_nothing_gate (to_euler : Quat → Euler3)
    (scene : Scene) (nm : String) (store : Store) (obj : BObject)
    (q1_raw q2_raw : JValue) (q1 q2 : Quat)
    (pbB pbS pbE pbW pbW2 pbG : PoseBone)
    (hobj : scene nm = some obj)
    (hB : obj.pose ("UpperArm.008") = some pbB)
    (hS : obj.pose ("UpperArm.015") = some pbS)
    (hE : obj.pose ("UpperArm.018") = some pbE)
    (hW : obj.pose ("UpperArm.019") = some pbW)
    (hW2 : obj.pose ("UpperArm.020") = some pbW2)
    (hG : obj.pose ("UpperArm.021") = some pbG) :
    (store (.jnum V1.IMU_SHOULDER_ID) = none ∨
     store (.jnum V1.IMU_FOREARM_ID) = none →
       V1.tick to_euler scene nm store = .ok scene) ∧
    (store (.jnum V1.IMU_SHOULDER_ID) = some q1_raw →
     store (.jnum V1.IMU_FOREARM_ID) = some q2_raw →
     V1.quatFromIndexed q1_raw = some q1 →
     V1.quatFromIndexed q2_raw = some q2 →
       raised (V1.tick to_euler scene nm store) = false ∧
       boneAfter (V1.tick to_euler scene nm store) nm ("UpperArm.008") =
         some ⟨RotMode.xyz, { pbB.rotation_euler with z := (to_euler q1).z }, pbB.rotation_quaternion⟩ ∧
       boneAfter (V1.tick to_euler scene nm store) nm ("UpperArm.015") =
         some ⟨RotMode.xyz, { pbS.rotation_euler with x := (to_euler q1).y }, pbS.rotation_quaternion⟩ ∧
       boneAfter (V1.tick to_euler scene nm store) nm ("UpperArm.018") =
         some ⟨RotMode.xyz, { pbE.rotation_euler with x := (to_euler q2).y - (to_euler q1).y }, pbE.rotation_quaternion⟩ ∧
       boneAfter (V1.tick to_euler scene nm store) nm ("UpperArm.019") =
         some ⟨RotMode.xyz, { pbW.rotation_euler with y := (to_euler q2).x - (to_euler q1).x }, pbW.rotation_quaternion⟩ ∧
       boneAfter (V1.tick to_euler scene nm store) nm ("UpperArm.020") =
         some ⟨RotMode.xyz, { pbW2.rotation_euler with x := 0 }, pbW2.rotation_quaternion⟩ ∧
       boneAfter (V1.tick to_euler scene nm store) nm ("UpperArm.021") =
         some ⟨RotMode.xyz, { pbG.rotation_euler with y := (to_euler q2).x }, pbG.rotation_quaternion⟩) := by
  constructor
  · exact V1.tick_gate to_euler scene nm store
  · intro h1 h2 hq1 hq2
    exact V1.tick_full_update to_euler scene nm store obj q1_raw q2_raw q1 q2
      (to_euler q1) (to_euler q2) pbB pbS pbE pbW pbW2 pbG
      hobj h1 h2 hq1 hq2 rfl rfl hB hS hE hW hW2 hG

/-- Witness for C3: with only the shoulder packet in the store the tick
leaves the sample scene untouched; with both packets present all six bones
are written in one tick (shown here for the Wrist_2 placeholder joint and
the raise-free outcome). -/
theorem C3_witness :
    storeOnlyShoulder (.jnum V1.IMU_FOREARM_ID) = none ∧
    V1.tick to_eulerSample sceneSample ("Armature") storeOnlyShoulder =
      .ok sceneSample ∧
    raised (V1.tick to_eulerSample sceneSample ("Armature") storeSampleV1) = false ∧
    boneAfter (V1.tick to_eulerSample sceneSample ("Armature") storeSampleV1)
      ("Armature") ("UpperArm.020") =
      some ⟨RotMode.xyz, ⟨0, 200, 300⟩, ⟨1, 0, 0, 0⟩⟩ := by
  have hgate := C3_policyB_all_or_nothing_gate to_eulerSample sceneSample
    ("Armature") storeOnlyShoulder objSample
    (.jarr [.jnum 1, .jnum 0, .jnum 0, .jnum 0])
    (.jarr [.jnum 1, .jnum 0, .jnum 0, .jnum 0])
    ⟨1, 0, 0, 0⟩ ⟨1, 0, 0, 0⟩
    pbSample pbSample pbSample pbSample pbSample pbSample
    rfl rfl rfl rfl rfl rfl rfl
  have hfull := C3_policyB_all_or_nothing_gate to_eulerSample sceneSample
    ("Armature") storeSampleV1 objSample
    (.jarr [.jnum 1, .jnum 0, .jnum 0, .jnum 0])
    (.jarr [.jnum 0, .jnum 1, .jnum 0, .jnum 0])
    ⟨1, 0, 0, 0⟩ ⟨0, 1, 0, 0⟩
    pbSample pbSample pbSample pbSample pbSample pbSample
    rfl rfl rfl rfl rfl rfl rfl
  have hboth := hfull.2 rfl rfl rfl rfl
  exact ⟨rfl, hgate.1 (Or.inr rfl), hboth.1,
    hboth.2.2.2.2.2.1.trans (by norm_num [pbSample, to_eulerSample])⟩


/-- Claim C9: each per-joint update of a Retarget Stage tick writes exactly
the joint's one configured axis of the target bone's Euler rotation, leaving
the bone's other two Euler components and its quaternion exactly as the host
held them (single-axis, non-destructive write).  Stated componentwise: for
every joint, the two off-axis Euler components and the quaternion after the
tick equal their prior values. -/
theorem C9_policyB_single_axis_write (to_euler : Quat → Euler3)
    (scene : Scene) (nm : String) (store : Store) (obj : BObject)
    (q1_raw q2_raw : JValue) (q1 q2 : Quat) (e1 e2 : Euler3)
    (pbB pbS pbE pbW pbW2 pbG : PoseBone)
    (hobj : scene nm = some obj)
    (h1 : store (.jnum V1.IMU_SHOULDER_ID) = some q1_raw)
    (h2 : store (.jnum V1.IMU_FOREARM_ID) = some q2_raw)
    (hq1 : V1.quatFromIndexed q1_raw = some q1)
    (hq2 : V1.quatFromIndexed q2_raw = some q2)
    (he1 : to_euler q1 = e1)
    (he2 : to_euler q2 = e2)
    (hB : obj.pose ("UpperArm.008") = some pbB)
    (hS : obj.pose ("UpperArm.015") = some pbS)
    (hE : obj.pose ("UpperArm.018") = some pbE)
    (hW : obj.pose ("UpperArm.019") = some pbW)
    (hW2 : obj.pose ("UpperArm.020") = some pbW2)
    (hG : obj.pose ("UpperArm.021") = some pbG) :
    (eulerAfter (V1.tick to_euler scene nm store) nm ("UpperArm.008") =
       some ⟨pbB.rotation_euler.x, pbB.rotation_euler.y, e1.z⟩ ∧
     quatAfter (V1.tick to_euler scene nm store) nm ("UpperArm.008") =
       some pbB.rotation_quaternion) ∧
    (eulerAfter (V1.tick to_euler scene nm store) nm ("UpperArm.015") =
       some ⟨e1.y, pbS.rotation_euler.y, pbS.rotation_euler.z⟩ ∧
     quatAfter (V1.tick to_euler scene nm store) nm ("UpperArm.015") =
       some pbS.rotation_quaternion) ∧
    (eulerAfter (V1.tick to_euler scene nm store) nm ("UpperArm.018") =
       some ⟨e2.y - e1.y, pbE.rotation_euler.y, pbE.rotation_euler.z⟩ ∧
     quatAfter (V1.tick to_euler scene nm store) nm ("UpperArm.018") =
       some pbE.rotation_quaternion) ∧
    (eulerAfter (V1.tick to_euler scene nm store) nm ("UpperArm.019") =
       some ⟨pbW.rotation_euler.x, e2.x - e1.x, pbW.rotation_euler.z⟩ ∧
     quatAfter (V1.tick to_euler scene nm store) nm ("UpperArm.019") =
       some pbW.rotation_quaternion) ∧
    (eulerAfter (V1.tick to_euler scene nm store) nm ("UpperArm.020") =
       some ⟨0, pbW2.rotation_euler.y, pbW2.rotation_euler.z⟩ ∧
     quatAfter (V1.tick to_euler scene nm store) nm ("UpperArm.020") =
       some pbW2.rotation_quaternion) ∧
    (eulerAfter (V1.tick to_euler scene nm store) nm ("UpperArm.021") =
       some ⟨pbG.rotation_euler.x, e2.x, pbG.rotation_euler.z⟩ ∧
     quatAfter (V1.tick to_euler scene nm store) nm ("UpperArm.021") =
       some pbG.rotation_quaternion) := by
  obtain ⟨-, c1, c2, c3, c4, c5, c6⟩ :=
    V1.tick_full_update to_euler scene nm store obj q1_raw q2_raw q1 q2 e1 e2
      pbB pbS pbE pbW pbW2 pbG hobj h1 h2 hq1 hq2 he1 he2 hB hS hE hW hW2 hG
  refine ⟨⟨?_, ?_⟩, ⟨?_, ?_⟩, ⟨?_, ?_⟩, ⟨?_, ?_⟩, ⟨?_, ?_⟩, ⟨?_, ?_⟩⟩ <;>
    simp only [eulerAfter, quatAfter, c1, c2, c3, c4, c5, c6,
      Option.map_some']

/-- Witness for C9 on the sample rig: the Base bone keeps its prior x and y
Euler components and its quaternion; the Gripper bone keeps x and z. -/
theorem C9_witness :
    eulerAfter (V1.tick to_eulerSample sceneSample ("Armature") storeSampleV1)
      ("Armature") ("UpperArm.008") = some ⟨100, 200, 30⟩ ∧
    quatAfter (V1.tick to_eulerSample sceneSample ("Armature") storeSampleV1)
      ("Armature") ("UpperArm.008") = some ⟨1, 0, 0, 0⟩ ∧
    eulerAfter (V1.tick to_eulerSample sceneSample ("Armature") storeSampleV1)
      ("Armature") ("UpperArm.021") = some ⟨100, 5, 300⟩ := by
  have h := C9_policyB_single_axis_write to_eulerSample sceneSample
    ("Armature") storeSampleV1 objSample
    (.jarr [.jnum 1, .jnum 0, .jnum 0, .jnum 0])
    (.jarr [.jnum 0, .jnum 1, .jnum 0, .jnum 0])
    ⟨1, 0, 0, 0⟩ ⟨0, 1, 0, 0⟩ ⟨0, 10, 30⟩ ⟨5, 25, 0⟩
    pbSample pbSample pbSample pbSample pbSample pbSample
    rfl rfl rfl rfl rfl (by decide) (by decide) rfl rfl rfl rfl rfl rfl
  exact ⟨h.1.1.trans (by norm_num [pbSample]),
    h.1.2.trans (by norm_num [pbSample]),
    h.2.2.2.2.2.1.trans (by norm_num [pbSample])⟩


/-- Claim C10: every pose write overwrites the bone's rotation representation
mode first, whatever mode the host previously held (the prior bones
`pb0 … pbG` are arbitrary, including arbitrary modes): a Link Stage update
forces `'QUATERNION'`; a Retarget Stage tick update and the Retarget Stage
home reset at stop force `'XYZ'` on every configured bone. -/
theorem C10_rotation_mode_overwritten (to_quaternion : Euler3 → Quat)
    (to_euler : Quat → Euler3) (pi : ℚ) (scene : Scene) (nm : String)
    (store : Store) (obj : BObject) (q0v q1v : JValue)
    (w0 x0 y0 z0 w1 x1 y1 z1 : ℚ) (q1 q2 : Quat)
    (pbB pbS pbE pbW pbW2 pbG : PoseBone)
    (hobj : scene nm = some obj)
    (h0 : store (.jnum 0) = some q0v)
    (h1 : store (.jnum 1) = some q1v)
    (hu0 : Link.unpackQuat4 q0v = some (w0, x0, y0, z0))
    (hu1 : Link.unpackQuat4 q1v = some (w1, x1, y1, z1))
    (hv1 : V1.quatFromIndexed q1v = some q1)
    (hv0 : V1.quatFromIndexed q0v = some q2)
    (hB : obj.pose ("UpperArm.008") = some pbB)
    (hS : obj.pose ("UpperArm.015") = some pbS)
    (hE : obj.pose ("UpperArm.018") = some pbE)
    (hW : obj.pose ("UpperArm.019") = some pbW)
    (hW2 : obj.pose ("UpperArm.020") = some pbW2)
    (hG : obj.pose ("UpperArm.021") = some pbG) :
    modeAfter (Link.tick to_quaternion scene nm store) nm ("UpperArm.008") =
      some RotMode.quaternion ∧
    modeAfter (Link.tick to_quaternion scene nm store) nm ("UpperArm.021") =
      some RotMode.quaternion ∧
    modeAfter (V1.tick to_euler scene nm store) nm ("UpperArm.008") = some RotMode.xyz ∧
    modeAfter (V1.tick to_euler scene nm store) nm ("UpperArm.015") = some RotMode.xyz ∧
    modeAfter (V1.tick to_euler scene nm store) nm ("UpperArm.018") = some RotMode.xyz ∧
    modeAfter (V1.tick to_euler scene nm store) nm ("UpperArm.019") = some RotMode.xyz ∧
    modeAfter (V1.tick to_euler scene nm store) nm ("UpperArm.020") = some RotMode.xyz ∧
    modeAfter (V1.tick to_euler scene nm store) nm ("UpperArm.021") = some RotMode.xyz ∧
    modeIn (V1.cancelReset pi scene nm) nm ("UpperArm.008") = some RotMode.xyz ∧
    modeIn (V1.cancelReset pi scene nm) nm ("UpperArm.015") = some RotMode.xyz ∧
    modeIn (V1.cancelReset pi scene nm) nm ("UpperArm.018") = some RotMode.xyz ∧
    modeIn (V1.cancelReset pi scene nm) nm ("UpperArm.019") = some RotMode.xyz ∧
    modeIn (V1.cancelReset pi scene nm) nm ("UpperArm.020") = some RotMode.xyz ∧
    modeIn (V1.cancelReset pi scene nm) nm ("UpperArm.021") = some RotMode.xyz := by
  obtain ⟨-, l1, l2⟩ := Link.tick_both_sensors to_quaternion scene nm store obj q0v q1v
    w0 x0 y0 z0 w1 x1 y1 z1 pbB pbG hobj h0 h1 hu0 hu1 hB hG
  obtain ⟨-, v1, v2, v3, v4, v5, v6⟩ :=
    V1.tick_full_update to_euler scene nm store obj q1v q0v q1 q2
      (to_euler q1) (to_euler q2) pbB pbS pbE pbW pbW2 pbG
      hobj h1 h0 hv1 hv0 rfl rfl hB hS hE hW hW2 hG
  obtain ⟨r1, r2, r3, r4, r5, r6⟩ :=
    V1.cancelReset_spec pi scene nm obj pbB pbS pbE pbW pbW2 pbG
      hobj hB hS hE hW hW2 hG
  refine ⟨?_, ?_, ?_, ?_, ?_, ?_, ?_, ?_, ?_, ?_, ?_, ?_, ?_, ?_⟩ <;>
    simp only [modeAfter, modeIn, l1, l2, v1, v2, v3, v4, v5, v6,
      r1, r2, r3, r4, r5, r6, Option.map_some']

/-- Witness for C10 on the sample rig, whose bones start in quaternion mode:
a Retarget tick forces `'XYZ'` on the Base bone, the stop reset forces
`'XYZ'` on the Gripper bone, and a Link tick forces `'QUATERNION'` on its
sensor-0 bone. -/
theorem C10_witness :
    pbSample.rotation_mode = RotMode.quaternion ∧
    modeAfter (V1.tick to_eulerSample sceneSample ("Armature") storeSampleV1)
      ("Armature") ("UpperArm.008") = some RotMode.xyz ∧
    modeIn (V1.cancelReset 3 sceneSample ("Armature")) ("Armature")
      ("UpperArm.021") = some RotMode.xyz ∧
    modeAfter (Link.tick to_quaternionSample sceneSample ("Armature")
      storeSampleLink) ("Armature") ("UpperArm.008") = some RotMode.quaternion := by
  have h := C10_rotation_mode_overwritten to_quaternionSample to_eulerSample 3
    sceneSample ("Armature") storeSampleLink objSample
    (.jarr [.jnum 1, .jnum 0, .jnum 0, .jnum 0])
    (.jarr [.jnum 1, .jnum 0, .jnum 0, .jnum 0])
    1 0 0 0 1 0 0 0 ⟨1, 0, 0, 0⟩ ⟨1, 0, 0, 0⟩
    pbSample pbSample pbSample pbSample pbSample pbSample
    rfl rfl rfl rfl rfl rfl rfl rfl rfl rfl rfl rfl rfl
  have hv := C10_rotation_mode_overwritten to_quaternionSample to_eulerSample 3
    sceneSample ("Armature") storeSampleV1 objSample
    (.jarr [.jnum 0, .jnum 1, .jnum 0, .jnum 0])
    (.jarr [.jnum 1, .jnum 0, .jnum 0, .jnum 0])
    0 1 0 0 1 0 0 0 ⟨1, 0, 0, 0⟩ ⟨0, 1, 0, 0⟩
    pbSample pbSample pbSample pbSample pbSample pbSample
    rfl rfl rfl rfl rfl rfl rfl rfl rfl rfl rfl rfl rfl
  exact ⟨rfl, hv.2.2.1, h.2.2.2.2.2.2.2.2.2.2.2.2.2, h.1⟩


/-- Claim C2: in the Link Stage, for every configured sensor with data
present, the rotation written to the sensor's bone is the stored quaternion
(w,x,y,z) relabeled to (w, y, x, −z), composed with the bone's static
corrective offset applied second (`final = sensor_quat * offset_quat`, the
offset being the configured Euler `(0,0,0)` put through the host's
`to_quaternion`); when that offset quaternion is the identity — which is
what `mathutils` yields on `(0,0,0)` — the write is the bare relabeling, so
the input (1,0,0,0) puts the identity rotation on the bone. -/
theorem C2_policyA_relabel_compose (to_quaternion : Euler3 → Quat)
    (scene : Scene) (nm : String) (store : Store) (obj : BObject)
    (q0v q1v : JValue) (w0 x0 y0 z0 w1 x1 y1 z1 : ℚ) (pb0 pb1 : PoseBone)
    (hobj : scene nm = some obj)
    (h0 : store (.jnum 0) = some q0v)
    (h1 : store (.jnum 1) = some q1v)
    (hu0 : Link.unpackQuat4 q0v = some (w0, x0, y0, z0))
    (hu1 : Link.unpackQuat4 q1v = some (w1, x1, y1, z1))
    (hb0 : obj.pose ("UpperArm.008") = some pb0)
    (hb1 : obj.pose ("UpperArm.021") = some pb1) :
    quatAfter (Link.tick to_quaternion scene nm store) nm ("UpperArm.008") =
      some (Quat.mul ⟨w0, y0, x0, -z0⟩ (to_quaternion ⟨0, 0, 0⟩)) ∧
    quatAfter (Link.tick to_quaternion scene nm store) nm ("UpperArm.021") =
      some (Quat.mul ⟨w1, y1, x1, -z1⟩ (to_quaternion ⟨0, 0, 0⟩)) ∧
    (to_quaternion ⟨0, 0, 0⟩ = Quat.one →
       quatAfter (Link.tick to_quaternion scene nm store) nm ("UpperArm.008") =
         some ⟨w0, y0, x0, -z0⟩ ∧
       quatAfter (Link.tick to_quaternion scene nm store) nm ("UpperArm.021") =
         some ⟨w1, y1, x1, -z1⟩) := by
  obtain ⟨-, l0, l1⟩ := Link.tick_both_sensors to_quaternion scene nm store obj q0v q1v
    w0 x0 y0 z0 w1 x1 y1 z1 pb0 pb1 hobj h0 h1 hu0 hu1 hb0 hb1
  refine ⟨?_, ?_, fun hone => ⟨?_, ?_⟩⟩ <;>
    simp only [quatAfter, l0, l1, Option.map_some'] <;>
    rw [hone, Quat.mul_one_right]

/-- Witness for C2: with the identity packet (1,0,0,0) stored for both
sensors and the identity offset, both configured bones end up carrying the
identity rotation. -/
theorem C2_witness :
    to_quaternionSample ⟨0, 0, 0⟩ = Quat.one ∧
    quatAfter (Link.tick to_quaternionSample sceneSample ("Armature")
      storeSampleLink) ("Armature") ("UpperArm.008") = some Quat.one ∧
    quatAfter (Link.tick to_quaternionSample sceneSample ("Armature")
      storeSampleLink) ("Armature") ("UpperArm.021") = some Quat.one := by
  have h := C2_policyA_relabel_compose to_quaternionSample sceneSample
    ("Armature") storeSampleLink objSample
    (.jarr [.jnum 1, .jnum 0, .jnum 0, .jnum 0])
    (.jarr [.jnum 1, .jnum 0, .jnum 0, .jnum 0])
    1 0 0 0 1 0 0 0 pbSample pbSample
    rfl rfl rfl rfl rfl rfl rfl
  have hid := h.2.2 rfl
  exact ⟨rfl, hid.1.trans (by norm_num [Quat.one]),
    hid.2.trans (by norm_num [Quat.one])⟩


/-- Counterexample to claim C4 as stated: the Retarget Stage stop
(`RobotMocapOperator.cancel` of `src/v1.py`) modifies the rig even when no
sensor ever received a packet.  The reset never consults the Orientation
Store: here the store is empty (both sensor ids have never received data),
yet after stop the Base joint's bone has changed — its Euler z component was
driven from 300 to the home angle 0 and its mode forced to `'XYZ'`.  So "the
corresponding bone/joint rotation is never modified by any operation …
across stop" is false for the Retarget Stage. -/
theorem C4_counterexample :
    Store.empty (.jnum V1.IMU_SHOULDER_ID) = none ∧
    Store.empty (.jnum V1.IMU_FOREARM_ID) = none ∧
    boneIn sceneSample ("Armature") ("UpperArm.008") =
      some ⟨RotMode.quaternion, ⟨100, 200, 300⟩, ⟨1, 0, 0, 0⟩⟩ ∧
    boneIn (V1.cancelReset 3 sceneSample ("Armature")) ("Armature")
      ("UpperArm.008") =
      some ⟨RotMode.xyz, ⟨100, 200, 0⟩, ⟨1, 0, 0, 0⟩⟩ ∧
    boneIn (V1.cancelReset 3 sceneSample ("Armature")) ("Armature")
      ("UpperArm.008") ≠ boneIn sceneSample ("Armature") ("UpperArm.008") := by
  have h := V1.cancelReset_spec 3 sceneSample ("Armature") objSample
    pbSample pbSample pbSample pbSample pbSample pbSample
    rfl rfl rfl rfl rfl rfl rfl
  have h008 : boneIn (V1.cancelReset 3 sceneSample ("Armature")) ("Armature")
      ("UpperArm.008") = some ⟨RotMode.xyz, ⟨100, 200, 0⟩, ⟨1, 0, 0, 0⟩⟩ :=
    h.1.trans (by norm_num [pbSample, radians])
  exact ⟨rfl, rfl, rfl, h008, by rw [h008]; decide⟩

/-- Claim C4 as amended: for every sensor id that has never received a
packet, no *tick* of either stage modifies the corresponding bone (the
Retarget tick modifies nothing at all when either sensor is missing; a Link
tick leaves the data-less sensor's bone untouched whatever happens with the
other sensor), and the Link Stage stop modifies no rotations; the Retarget
Stage stop, however, writes the configured home pose to all configured
joints regardless of sensor data (that unconditional reset is the
counterexample). -/
theorem C4_amended_no_write_without_data (to_euler : Quat → Euler3)
    (to_quaternion : Euler3 → Quat) (scene : Scene) (nm : String)
    (store : Store) (obj : BObject)
    (hobj : scene nm = some obj) :
    (store (.jnum V1.IMU_SHOULDER_ID) = none ∨
     store (.jnum V1.IMU_FOREARM_ID) = none →
       V1.tick to_euler scene nm store = .ok scene) ∧
    (store (.jnum 0) = none →
       boneAfter (Link.tick to_quaternion scene nm store) nm ("UpperArm.008") =
         obj.pose ("UpperArm.008")) ∧
    (store (.jnum 1) = none →
       boneAfter (Link.tick to_quaternion scene nm store) nm ("UpperArm.021") =
         obj.pose ("UpperArm.021")) ∧
    (∀ st : V1.RunState, (Link.cancel st).1.scene = st.scene) := by
  exact ⟨V1.tick_gate to_euler scene nm store,
    fun h0 => Link.tick_absent0 to_quaternion scene nm store obj hobj h0,
    fun h1 => Link.tick_absent1 to_quaternion scene nm store obj hobj h1,
    fun _ => rfl⟩

/-- Witness for the amended C4, on the sample scene with an empty store:
neither stage's tick touches anything, and the Link stop leaves the scene
as it was. -/
theorem C4_witness :
    V1.tick to_eulerSample sceneSample ("Armature") Store.empty =
      .ok sceneSample ∧
    boneAfter (Link.tick to_quaternionSample sceneSample ("Armature")
      Store.empty) ("Armature") ("UpperArm.008") = some pbSample ∧
    (Link.cancel ⟨true, true, sceneSample⟩).1.scene = sceneSample := by
  have h := C4_amended_no_write_without_data to_eulerSample
    to_quaternionSample sceneSample ("Armature") Store.empty objSample rfl
  exact ⟨h.1 (Or.inl rfl), (h.2.1 rfl).trans rfl, h.2.2.2 ⟨true, true, sceneSample⟩⟩


/-- Unfolding equation of `processLine` on a decodable line. -/
theorem processLine_some (loads : String → Option JObj) (store : Store)
    (s : String) :
    processLine loads store (some s) =
      (if pyStartsWith (pyStrip s) ("\x7b") && pyEndsWith (pyStrip s) ("\x7d") then
        match loads (pyStrip s) with
        | none => store
        | some data =>
          match data.lookup ("id"), data.lookup ("q") with
          | some idv, some qv =>
              if hashableKey idv then store.set idv qv else store
          | _, _ => store
      else store) := rfl

/-- The line `{"id": 0, "q": [1, 2]}`: syntactically valid JSON with both
keys present, but a two-element rotation. -/
def lineBadQ : String := "\x7b\"id\": 0, \"q\": [1, 2]\x7d"

/-- `json.loads` restricted to `lineBadQ`: on that line the real library
returns the object with id 0 and q [1, 2] (the line is well-formed JSON);
on every other line this stand-in reports a parse failure. -/
def loadsBadQ : String → Option JObj := fun s =>
  if s = lineBadQ then
    some [(("id"), .jnum 0), (("q"), .jarr [.jnum 1, .jnum 2])]
  else none

/-- Counterexample to claim C5 as stated: the receiver validates only that
the parsed object has keys `id` and `q`, never that `q` is a 4-element
numeric rotation.  The well-formed JSON line `{"id": 0, "q": [1, 2]}` is
parsed and stored verbatim, the stored entry is not a readable rotation for
either stage, and the Link Stage pose updater raises on the very next tick
(the Retarget updater would raise equally once both sensors are present).
So "every entry the per-frame pose updater reads is a 4-element numeric
rotation and malformed frames never propagate to (or crash) the pose
updater" is false. -/
theorem C5_counterexample :
    processLine loadsBadQ Store.empty (some lineBadQ) (.jnum 0) =
      some (.jarr [.jnum 1, .jnum 2]) ∧
    Link.unpackQuat4 (.jarr [.jnum 1, .jnum 2]) = none ∧
    V1.quatFromIndexed (.jarr [.jnum 1, .jnum 2]) = none ∧
    raised (Link.tick to_quaternionSample sceneSample ("Armature")
      (processLine loadsBadQ Store.empty (some lineBadQ))) = true := by
  refine ⟨?_, rfl, rfl, ?_⟩ <;> rfl

/-- Claim C5 as amended: the receiver stores an Orientation Store entry
exactly when a received line passes the brace guard, parses, and the parsed
object contains keys `id` and `q` with a hashable id — the `id` and `q`
values are then stored verbatim, with no validation of their shapes, so
stored rotations need not be 4-element numeric arrays and the pose updater
can raise when reading such an entry. -/
theorem C5_amended_store_unvalidated (loads : String → Option JObj)
    (store : Store) (s : String) (data : JObj) (idv qv : JValue)
    (hg1 : pyStartsWith (pyStrip s) ("\x7b") = true)
    (hg2 : pyEndsWith (pyStrip s) ("\x7d") = true)
    (hl : loads (pyStrip s) = some data)
    (hid : data.lookup ("id") = some idv)
    (hq : data.lookup ("q") = some qv)
    (hh : hashableKey idv = true) :
    processLine loads store (some s) = store.set idv qv := by
  rw [processLine_some, hg1, hg2]
  simp only [Bool.and_self, if_true, hl, hid, hq, hh]

/-- Witness for the amended C5: the malformed-rotation line is stored
verbatim under id 0. -/
theorem C5_witness :
    loadsBadQ lineBadQ =
      some [(("id"), .jnum 0), (("q"), .jarr [.jnum 1, .jnum 2])] ∧
    processLine loadsBadQ Store.empty (some lineBadQ) =
      Store.empty.set (.jnum 0) (.jarr [.jnum 1, .jnum 2]) := by
  refine ⟨rfl, ?_⟩
  exact C5_amended_store_unvalidated loadsBadQ Store.empty lineBadQ
    [(("id"), .jnum 0), (("q"), .jarr [.jnum 1, .jnum 2])]
    (.jnum 0) (.jarr [.jnum 1, .jnum 2]) rfl rfl rfl rfl rfl rfl


/-- First valid packet line of the C6 scenario: `{"id": 0, "q": [1, 0, 0, 0]}`. -/
def lineC6a : String := "\x7b\"id\": 0, \"q\": [1, 0, 0, 0]\x7d"

/-- The malformed line of the C6 scenario (not valid JSON, and not even
brace-delimited, so the guard drops it before any parse is attempted). -/
def lineC6bad : String := "\x7bnot json"

/-- Second valid packet line of the C6 scenario: `{"id": 1, "q": [0, 1, 0, 0]}`. -/
def lineC6b : String := "\x7b\"id\": 1, \"q\": [0, 1, 0, 0]\x7d"

/-- The parse of `lineC6a` (what `json.loads` returns on it). -/
def packetC6a : JObj :=
  [(("id"), .jnum 0), (("q"), .jarr [.jnum 1, .jnum 0, .jnum 0, .jnum 0])]

/-- The parse of `lineC6b` (what `json.loads` returns on it). -/
def packetC6b : JObj :=
  [(("id"), .jnum 1), (("q"), .jarr [.jnum 0, .jnum 1, .jnum 0, .jnum 0])]

/-- Claim C6: a malformed line between two valid packets neither terminates
the receiver loop nor blocks either surrounding packet: processing the three
lines in order leaves exactly the two valid packets' effects in the store
(for any prior store contents), and the malformed line alone is a no-op. -/
theorem C6_malformed_line_is_harmless (loads : String → Option JObj)
    (store : Store)
    (hla : loads lineC6a = some packetC6a)
    (hlb : loads lineC6b = some packetC6b) :
    processLines loads store [some lineC6a, some lineC6bad, some lineC6b] =
      (store.set (.jnum 0) (.jarr [.jnum 1, .jnum 0, .jnum 0, .jnum 0])).set
        (.jnum 1) (.jarr [.jnum 0, .jnum 1, .jnum 0, .jnum 0]) ∧
    processLine loads store (some lineC6bad) = store := by
  constructor
  · simp only [processLines, List.foldl, processLine_some,
      show pyStrip lineC6a = lineC6a from rfl,
      show pyStrip lineC6bad = lineC6bad from rfl,
      show pyStrip lineC6b = lineC6b from rfl,
      show (pyStartsWith lineC6a ("\x7b") && pyEndsWith lineC6a ("\x7d")) = true from rfl,
      show (pyStartsWith lineC6bad ("\x7b") && pyEndsWith lineC6bad ("\x7d")) = false from rfl,
      show (pyStartsWith lineC6b ("\x7b") && pyEndsWith lineC6b ("\x7d")) = true from rfl,
      hla, hlb,
      show packetC6a.lookup ("id") = some (.jnum 0) from rfl,
      show packetC6a.lookup ("q") =
        some (.jarr [.jnum 1, .jnum 0, .jnum 0, .jnum 0]) from rfl,
      show packetC6b.lookup ("id") = some (.jnum 1) from rfl,
      show packetC6b.lookup ("q") =
        some (.jarr [.jnum 0, .jnum 1, .jnum 0, .jnum 0]) from rfl,
      show hashableKey (.jnum 0) = true from rfl,
      show hashableKey (.jnum 1) = true from rfl,
      if_true, if_false, Bool.false_eq_true, reduceIte]
  · simp only [processLine_some,
      show pyStrip lineC6bad = lineC6bad from rfl,
      show (pyStartsWith lineC6bad ("\x7b") && pyEndsWith lineC6bad ("\x7d")) = false from rfl,
      Bool.false_eq_true, reduceIte]

/-- A `json.loads` stand-in agreeing with the real library on the two valid
C6 lines and failing on everything else. -/
def loadsC6 : String → Option JObj := fun s =>
  if s = lineC6a then some packetC6a
  else if s = lineC6b then some packetC6b
  else none

/-- Witness for C6: running the three-line scenario from the empty store
under `loadsC6` yields exactly the two packets, and the malformed middle
line changes nothing. -/
theorem C6_witness :
    processLines loadsC6 Store.empty [some lineC6a, some lineC6bad, some lineC6b] =
      (Store.empty.set (.jnum 0) (.jarr [.jnum 1, .jnum 0, .jnum 0, .jnum 0])).set
        (.jnum 1) (.jarr [.jnum 0, .jnum 1, .jnum 0, .jnum 0]) ∧
    processLine loadsC6 Store.empty (some lineC6bad) = Store.empty :=
  C6_malformed_line_is_harmless loadsC6 Store.empty rfl rfl


/-- Claim C7: on the stop command the Retarget Stage clears the run flag,
deregisters the timer, returns `{'CANCELLED'}`, and drives every configured
joint's axis to its statically configured home angle converted by
`radians` — in one single reset batch, whatever the joints' last live angles
(the prior bones are arbitrary) and without consulting sensor data (`cancel`
takes no store).  The Link Stage's stop performs no reset: its scene is
returned identically. -/
theorem C7_stop_drives_home_pose (pi : ℚ) (st stL : V1.RunState)
    (nm : String) (obj : BObject) (pbB pbS pbE pbW pbW2 pbG : PoseBone)
    (hobj : st.scene nm = some obj)
    (hB : obj.pose ("UpperArm.008") = some pbB)
    (hS : obj.pose ("UpperArm.015") = some pbS)
    (hE : obj.pose ("UpperArm.018") = some pbE)
    (hW : obj.pose ("UpperArm.019") = some pbW)
    (hW2 : obj.pose ("UpperArm.020") = some pbW2)
    (hG : obj.pose ("UpperArm.021") = some pbG) :
    (V1.cancel pi st nm).2 = OpReturn.cancelled ∧
    (V1.cancel pi st nm).1.is_running = false ∧
    (V1.cancel pi st nm).1.timer_active = false ∧
    boneIn (V1.cancel pi st nm).1.scene nm ("UpperArm.008") =
      some ⟨RotMode.xyz, { pbB.rotation_euler with
        z := radians pi ((V1.INITIAL_POSE.lookup ("Base")).getD 0) },
        pbB.rotation_quaternion⟩ ∧
    boneIn (V1.cancel pi st nm).1.scene nm ("UpperArm.015") =
      some ⟨RotMode.xyz, { pbS.rotation_euler with
        x := radians pi ((V1.INITIAL_POSE.lookup ("Shoulder")).getD 0) },
        pbS.rotation_quaternion⟩ ∧
    boneIn (V1.cancel pi st nm).1.scene nm ("UpperArm.018") =
      some ⟨RotMode.xyz, { pbE.rotation_euler with
        x := radians pi ((V1.INITIAL_POSE.lookup ("Elbow")).getD 0) },
        pbE.rotation_quaternion⟩ ∧
    boneIn (V1.cancel pi st nm).1.scene nm ("UpperArm.019") =
      some ⟨RotMode.xyz, { pbW.rotation_euler with
        y := radians pi ((V1.INITIAL_POSE.lookup ("Wrist")).getD 0) },
        pbW.rotation_quaternion⟩ ∧
    boneIn (V1.cancel pi st nm).1.scene nm ("UpperArm.020") =
      some ⟨RotMode.xyz, { pbW2.rotation_euler with
        x := radians pi ((V1.INITIAL_POSE.lookup ("Wrist_2")).getD 0) },
        pbW2.rotation_quaternion⟩ ∧
    boneIn (V1.cancel pi st nm).1.scene nm ("UpperArm.021") =
      some ⟨RotMode.xyz, { pbG.rotation_euler with
        y := radians pi ((V1.INITIAL_POSE.lookup ("Gripper")).getD 0) },
        pbG.rotation_quaternion⟩ ∧
    (Link.cancel stL).1.scene = stL.scene ∧
    (Link.cancel stL).2 = OpReturn.cancelled := by
  obtain ⟨r1, r2, r3, r4, r5, r6⟩ :=
    V1.cancelReset_spec pi st.scene nm obj pbB pbS pbE pbW pbW2 pbG
      hobj hB hS hE hW hW2 hG
  exact ⟨rfl, rfl, rfl, r1, r2, r3, r4, r5, r6, rfl, rfl⟩

/-- Witness for C7 on the sample rig (home pose is 0° everywhere, π taken as
the rational 3 — the home angle 0° converts to 0 for any value of π): every
bone's configured axis is driven to 0 from its live value, the run flag and
timer are cleared, and the Link stop leaves the sample scene untouched. -/
theorem C7_witness :
    (V1.cancel 3 ⟨true, true, sceneSample⟩ ("Armature")).2 =
      OpReturn.cancelled ∧
    (V1.cancel 3 ⟨true, true, sceneSample⟩ ("Armature")).1.is_running = false ∧
    boneIn (V1.cancel 3 ⟨true, true, sceneSample⟩ ("Armature")).1.scene
      ("Armature") ("UpperArm.008") =
      some ⟨RotMode.xyz, ⟨100, 200, 0⟩, ⟨1, 0, 0, 0⟩⟩ ∧
    boneIn (V1.cancel 3 ⟨true, true, sceneSample⟩ ("Armature")).1.scene
      ("Armature") ("UpperArm.019") =
      some ⟨RotMode.xyz, ⟨100, 0, 300⟩, ⟨1, 0, 0, 0⟩⟩ ∧
    (Link.cancel ⟨true, true, sceneSample⟩).1.scene = sceneSample := by
  have h := C7_stop_drives_home_pose 3 ⟨true, true, sceneSample⟩
    ⟨true, true, sceneSample⟩ ("Armature") objSample
    pbSample pbSample pbSample pbSample pbSample pbSample
    rfl rfl rfl rfl rfl rfl rfl
  exact ⟨h.1, h.2.1,
    h.2.2.2.1.trans
      (by simp [pbSample, radians, V1.INITIAL_POSE, List.lookup,
        String.reduceBEq]),
    h.2.2.2.2.2.2.1.trans
      (by simp [pbSample, radians, V1.INITIAL_POSE, List.lookup,
        String.reduceBEq]),
    h.2.2.2.2.2.2.2.2.2.1⟩


/-- Claim C8: when no rig can be resolved at start — the active object is
absent or not an armature, and no object carries the well-known default name
`"Armature"` — `execute` reports a user-facing error and aborts with no
state change: the result keeps the run flag cleared and the previous
armature name, starts no receiver thread, registers no timer, and returns
`{'CANCELLED'}`. -/
theorem C8_start_failure_no_state_change (armature_name : String)
    (active : Option Lifecycle.ActiveObj) (objects : Scene)
    (hact : ∀ a, active = some a → a.otype ≠ ("ARMATURE"))
    (hfb : objects ("Armature") = none) :
    Lifecycle.execute false armature_name active objects =
      ⟨false, armature_name, false, false, true, OpReturn.cancelled⟩ := by
  unfold Lifecycle.execute Lifecycle.resolveArmature
  cases active with
  | none => simp [hfb]
  | some a => simp [hfb, hact a rfl]

/-- Witness for C8: with nothing selected and an empty scene, the start
command fails with the error report and no state change. -/
theorem C8_witness :
    sceneNone ("Armature") = none ∧
    Lifecycle.execute false ("") none sceneNone =
      ⟨false, (""), false, false, true, OpReturn.cancelled⟩ :=
  ⟨rfl, C8_start_failure_no_state_change ("") none sceneNone
    (fun a h => by cases h) rfl⟩

end AIRESx1
